import Mathlib

/-!
# Named gates of `cppsim/gate_named.hpp`

A shallow embedding of the four gate classes of `gate_named.hpp`
(`QuantumGate_OneQubit`, `QuantumGate_TwoQubit`,
`QuantumGate_OneControlOneTarget`, `QuantumGate_OneQubitRotation`) and of
their three methods `update_quantum_state`, `copy` and `set_matrix`.

Conventions of the embedding:

* `UINT` and `ITYPE` are `Nat`: the gates only pass these values on, they do
  no arithmetic on them.
* `CTYPE` (a complex amplitude) and `double` (the rotation angle) are type
  parameters: the gates never inspect such a value, they only hand it to a
  kernel or copy it.
* A buffer reached through `CTYPE*` / `void*` is the list of its elements; a
  kernel, which mutates the buffer in place, is a function from the old
  contents to the new contents.
* A method that runs on `this` returns the receiver after the call next to
  what it produced, so that frame properties can be stated.
* `std::vector::operator[]` outside the range is a `Fault.out_of_range`.
* The preprocessor symbol `_USE_GPU` is a `Bool` argument.
-/

namespace Qulacs

/-- Type `UINT` of the simulator: `unsigned int`, only ever passed on. -/
abbrev UINT := Nat

/-- Type `ITYPE` of the simulator: the integral type of a state dimension. -/
abbrev ITYPE := Nat

/-- The only failure the gate layer itself can run into: an element access
    `v[i]` on a `std::vector` with `i` outside the range. -/
inductive Fault where
  | out_of_range
deriving DecidableEq, Repr

/-- Element access `std::vector::operator[]`: the element at position `i`, a fault when
    the position is outside the range. -/
def vector_at {α : Type} (v : List α) (i : Nat) : Except Fault α :=
  match v[i]? with
  | some x => .ok x
  | none => .error .out_of_range

/-- Modelled from the spec: the qubit index container of a target qubit
    (its header is not among the sources); the gates read only `index()`. -/
structure TargetQubitInfo where
  index : UINT
deriving DecidableEq, Repr

/-- Modelled from the spec: the qubit index container of a control qubit
    (its header is not among the sources); the gates read only `index()`. -/
structure ControlQubitInfo where
  index : UINT
deriving DecidableEq, Repr

/-- Modelled from the spec: the dense complex matrix container (its header is
    not among the sources); it supports assignment from another container. -/
structure ComplexMatrix (CTYPE : Type) where
  rows : Nat
  cols : Nat
  coeffs : List CTYPE
deriving DecidableEq, Repr

/-- Modelled from the spec: the abstract gate type `QuantumGateBase` of
    `gate.hpp` (not among the sources), which stores the target-qubit index
    list and the control-qubit list of a gate. -/
structure QuantumGateBase where
  _target_qubit_list : List TargetQubitInfo
  _control_qubit_list : List ControlQubitInfo
deriving DecidableEq, Repr

/-- Modelled from the spec: the public read-only view `target_qubit_list` of
    the base class. The spec gives a gate one target-qubit index list, so the
    view denotes the stored list `_target_qubit_list`. -/
def QuantumGateBase.target_qubit_list (g : QuantumGateBase) : List TargetQubitInfo :=
  g._target_qubit_list

/-- Modelled from the spec: the public read-only view `control_qubit_list` of
    the base class, denoting the stored list `_control_qubit_list`. -/
def QuantumGateBase.control_qubit_list (g : QuantumGateBase) : List ControlQubitInfo :=
  g._control_qubit_list

/-- Modelled from the spec: the copy constructor of `QuantumGateBase`
    (`gate.hpp`, not among the sources). Section 4.2 of the spec: the duplicate
    carries the qubit index list and the control list of the original. -/
def QuantumGateBase.copy_constructor (obj : QuantumGateBase) : QuantumGateBase :=
  { _target_qubit_list := obj.target_qubit_list
    _control_qubit_list := obj.control_qubit_list }

/-- Modelled from the spec: the state collaborator `QuantumStateBase` of
    `state.hpp` (not among the sources): a storage-mode flag, the reported
    device name, the one raw buffer of the state, its dimension, and the
    compute-stream handle and device identifier of a device-resident state. -/
structure QuantumStateBase (CTYPE : Type) where
  _is_state_vector : Bool
  _device_name : String
  _state_vector : List CTYPE
  dim : ITYPE
  _cuda_stream : Nat
  device_number : UINT
deriving DecidableEq, Repr

namespace QuantumStateBase

variable {CTYPE : Type}

/-- Accessor `is_state_vector()`. -/
def is_state_vector (state : QuantumStateBase CTYPE) : Bool := state._is_state_vector

/-- Accessor `get_device_name()`. -/
def get_device_name (state : QuantumStateBase CTYPE) : String := state._device_name

/-- Accessor `data()`: the buffer of the state as `void*`. -/
def data (state : QuantumStateBase CTYPE) : List CTYPE := state._state_vector

/-- Accessor `data_c()`: the buffer of the state as `CTYPE*`. -/
def data_c (state : QuantumStateBase CTYPE) : List CTYPE := state._state_vector

/-- Accessor `get_cuda_stream()`: the compute-stream handle. -/
def get_cuda_stream (state : QuantumStateBase CTYPE) : Nat := state._cuda_stream

/-- The state once a kernel has rewritten the buffer that `data()` /
    `data_c()` point to: a kernel holds nothing of the state but that
    pointer. -/
def written (state : QuantumStateBase CTYPE) (buffer : List CTYPE) : QuantumStateBase CTYPE :=
  { state with _state_vector := buffer }

end QuantumStateBase

/-- One invocation of a kernel through a function pointer of a gate, with the
    arguments it received. `Args` is the leading part of the argument list
    that the gate supplies (qubit index or indices, and the angle of a
    rotation); the rest comes from the state. -/
inductive KernelCall (Args CTYPE : Type) where
  | update_func (args : Args) (buffer : List CTYPE) (dim : ITYPE)
  | update_func_dm (args : Args) (buffer : List CTYPE) (dim : ITYPE)
  | update_func_gpu (args : Args) (buffer : List CTYPE) (dim : ITYPE)
      (stream : Nat) (device_number : UINT)
deriving DecidableEq, Repr

namespace KernelCall

variable {Args CTYPE : Type}

/-- The call went through `_update_func`. -/
def is_host : KernelCall Args CTYPE → Bool
  | update_func .. => true
  | _ => false

/-- The call went through `_update_func_dm`. -/
def is_dm : KernelCall Args CTYPE → Bool
  | update_func_dm .. => true
  | _ => false

/-- The call went through `_update_func_gpu`. -/
def is_gpu : KernelCall Args CTYPE → Bool
  | update_func_gpu .. => true
  | _ => false

/-- The part of the argument list that the gate supplied. -/
def args : KernelCall Args CTYPE → Args
  | update_func a .. => a
  | update_func_dm a .. => a
  | update_func_gpu a .. => a

end KernelCall

/-- What a call of `update_quantum_state` leaves behind: the gate, the state,
    and the kernel invocations it made, in order. -/
structure Updated (Gate Args CTYPE : Type) where
  self : Gate
  state : QuantumStateBase CTYPE
  calls : List (KernelCall Args CTYPE)

/-- What a `const` method leaves behind: the gate and the value produced
    (the new instance of `copy`, the caller's container of `set_matrix`). -/
structure Returned (Gate Out : Type) where
  self : Gate
  out : Out

/-! ## `QuantumGate_OneQubit` -/

/-- Class `QuantumGate_OneQubit`: the base part, three kernel pointers of
    type `T_UPDATE_FUNC` / `T_GPU_UPDATE_FUNC`, and the matrix snapshot. -/
structure QuantumGate_OneQubit (CTYPE : Type) extends QuantumGateBase where
  _update_func : UINT → List CTYPE → ITYPE → List CTYPE
  _update_func_dm : UINT → List CTYPE → ITYPE → List CTYPE
  _update_func_gpu : UINT → List CTYPE → ITYPE → Nat → UINT → List CTYPE
  _matrix_element : ComplexMatrix CTYPE

namespace QuantumGate_OneQubit

variable {CTYPE : Type}

/-- Method `QuantumGate_OneQubit::update_quantum_state`. -/
def update_quantum_state (_USE_GPU : Bool) (g : QuantumGate_OneQubit CTYPE)
    (state : QuantumStateBase CTYPE) :
    Except Fault (Updated (QuantumGate_OneQubit CTYPE) UINT CTYPE) :=
  if state.is_state_vector then
    if _USE_GPU then
      if state.get_device_name = "gpu" then do
        let t ← vector_at g.target_qubit_list 0
        pure { self := g
               state := state.written (g._update_func_gpu t.index state.data state.dim
                          state.get_cuda_stream state.device_number)
               calls := [.update_func_gpu t.index state.data state.dim
                          state.get_cuda_stream state.device_number] }
      else do
        let t ← vector_at g._target_qubit_list 0
        pure { self := g
               state := state.written (g._update_func t.index state.data_c state.dim)
               calls := [.update_func t.index state.data_c state.dim] }
    else do
      let t ← vector_at g._target_qubit_list 0
      pure { self := g
             state := state.written (g._update_func t.index state.data_c state.dim)
             calls := [.update_func t.index state.data_c state.dim] }
  else do
    let t ← vector_at g._target_qubit_list 0
    pure { self := g
           state := state.written (g._update_func_dm t.index state.data_c state.dim)
           calls := [.update_func_dm t.index state.data_c state.dim] }

/-- Method `QuantumGate_OneQubit::copy`: the implicit copy constructor, which
    copies the base part with the base copy constructor and every member of
    the class by value. -/
def copy (g : QuantumGate_OneQubit CTYPE) :
    Returned (QuantumGate_OneQubit CTYPE) (QuantumGate_OneQubit CTYPE) :=
  { self := g
    out := { toQuantumGateBase := g.toQuantumGateBase.copy_constructor
             _update_func := g._update_func
             _update_func_dm := g._update_func_dm
             _update_func_gpu := g._update_func_gpu
             _matrix_element := g._matrix_element } }

/-- Method `QuantumGate_OneQubit::set_matrix`: assigns the snapshot to the
    caller's container. -/
def set_matrix (g : QuantumGate_OneQubit CTYPE) (_matrix : ComplexMatrix CTYPE) :
    Returned (QuantumGate_OneQubit CTYPE) (ComplexMatrix CTYPE) :=
  { self := g, out := g._matrix_element }

/-- Arity invariant of the variant: at least one target index. -/
def arity_ok (g : QuantumGate_OneQubit CTYPE) : Prop :=
  1 ≤ g._target_qubit_list.length

instance (g : QuantumGate_OneQubit CTYPE) : Decidable g.arity_ok :=
  inferInstanceAs (Decidable (1 ≤ g._target_qubit_list.length))

end QuantumGate_OneQubit

/-! ## `QuantumGate_TwoQubit` -/

/-- Class `QuantumGate_TwoQubit`: the base part, three kernel pointers taking
    two qubit indices, and the matrix snapshot. -/
structure QuantumGate_TwoQubit (CTYPE : Type) extends QuantumGateBase where
  _update_func : UINT → UINT → List CTYPE → ITYPE → List CTYPE
  _update_func_dm : UINT → UINT → List CTYPE → ITYPE → List CTYPE
  _update_func_gpu : UINT → UINT → List CTYPE → ITYPE → Nat → UINT → List CTYPE
  _matrix_element : ComplexMatrix CTYPE

namespace QuantumGate_TwoQubit

variable {CTYPE : Type}

/-- Method `QuantumGate_TwoQubit::update_quantum_state`. -/
def update_quantum_state (_USE_GPU : Bool) (g : QuantumGate_TwoQubit CTYPE)
    (state : QuantumStateBase CTYPE) :
    Except Fault (Updated (QuantumGate_TwoQubit CTYPE) (UINT × UINT) CTYPE) :=
  if state.is_state_vector then
    if _USE_GPU then
      if state.get_device_name = "gpu" then do
        let t0 ← vector_at g._target_qubit_list 0
        let t1 ← vector_at g._target_qubit_list 1
        pure { self := g
               state := state.written (g._update_func_gpu t0.index t1.index state.data
                          state.dim state.get_cuda_stream state.device_number)
               calls := [.update_func_gpu (t0.index, t1.index) state.data state.dim
                          state.get_cuda_stream state.device_number] }
      else do
        let t0 ← vector_at g._target_qubit_list 0
        let t1 ← vector_at g._target_qubit_list 1
        pure { self := g
               state := state.written (g._update_func t0.index t1.index state.data_c
                          state.dim)
               calls := [.update_func (t0.index, t1.index) state.data_c state.dim] }
    else do
      let t0 ← vector_at g._target_qubit_list 0
      let t1 ← vector_at g._target_qubit_list 1
      pure { self := g
             state := state.written (g._update_func t0.index t1.index state.data_c state.dim)
             calls := [.update_func (t0.index, t1.index) state.data_c state.dim] }
  else do
    let t0 ← vector_at g._target_qubit_list 0
    let t1 ← vector_at g._target_qubit_list 1
    pure { self := g
           state := state.written (g._update_func_dm t0.index t1.index state.data_c state.dim)
           calls := [.update_func_dm (t0.index, t1.index) state.data_c state.dim] }

/-- Method `QuantumGate_TwoQubit::copy`: the implicit copy constructor. -/
def copy (g : QuantumGate_TwoQubit CTYPE) :
    Returned (QuantumGate_TwoQubit CTYPE) (QuantumGate_TwoQubit CTYPE) :=
  { self := g
    out := { toQuantumGateBase := g.toQuantumGateBase.copy_constructor
             _update_func := g._update_func
             _update_func_dm := g._update_func_dm
             _update_func_gpu := g._update_func_gpu
             _matrix_element := g._matrix_element } }

/-- Method `QuantumGate_TwoQubit::set_matrix`. -/
def set_matrix (g : QuantumGate_TwoQubit CTYPE) (_matrix : ComplexMatrix CTYPE) :
    Returned (QuantumGate_TwoQubit CTYPE) (ComplexMatrix CTYPE) :=
  { self := g, out := g._matrix_element }

/-- Arity invariant of the variant: at least two target indices. -/
def arity_ok (g : QuantumGate_TwoQubit CTYPE) : Prop :=
  2 ≤ g._target_qubit_list.length

instance (g : QuantumGate_TwoQubit CTYPE) : Decidable g.arity_ok :=
  inferInstanceAs (Decidable (2 ≤ g._target_qubit_list.length))

end QuantumGate_TwoQubit

/-! ## `QuantumGate_OneControlOneTarget` -/

/-- Class `QuantumGate_OneControlOneTarget`: the base part, three kernel
    pointers taking a control and a target index, and the matrix snapshot. -/
structure QuantumGate_OneControlOneTarget (CTYPE : Type) extends QuantumGateBase where
  _update_func : UINT → UINT → List CTYPE → ITYPE → List CTYPE
  _update_func_dm : UINT → UINT → List CTYPE → ITYPE → List CTYPE
  _update_func_gpu : UINT → UINT → List CTYPE → ITYPE → Nat → UINT → List CTYPE
  _matrix_element : ComplexMatrix CTYPE

namespace QuantumGate_OneControlOneTarget

variable {CTYPE : Type}

/-- Method `QuantumGate_OneControlOneTarget::update_quantum_state`. -/
def update_quantum_state (_USE_GPU : Bool) (g : QuantumGate_OneControlOneTarget CTYPE)
    (state : QuantumStateBase CTYPE) :
    Except Fault (Updated (QuantumGate_OneControlOneTarget CTYPE) (UINT × UINT) CTYPE) :=
  if state.is_state_vector then
    if _USE_GPU then
      if state.get_device_name = "gpu" then do
        let c ← vector_at g._control_qubit_list 0
        let t ← vector_at g._target_qubit_list 0
        pure { self := g
               state := state.written (g._update_func_gpu c.index t.index state.data
                          state.dim state.get_cuda_stream state.device_number)
               calls := [.update_func_gpu (c.index, t.index) state.data state.dim
                          state.get_cuda_stream state.device_number] }
      else do
        let c ← vector_at g._control_qubit_list 0
        let t ← vector_at g._target_qubit_list 0
        pure { self := g
               state := state.written (g._update_func c.index t.index state.data_c state.dim)
               calls := [.update_func (c.index, t.index) state.data_c state.dim] }
    else do
      let c ← vector_at g._control_qubit_list 0
      let t ← vector_at g._target_qubit_list 0
      pure { self := g
             state := state.written (g._update_func c.index t.index state.data_c state.dim)
             calls := [.update_func (c.index, t.index) state.data_c state.dim] }
  else do
    let c ← vector_at g._control_qubit_list 0
    let t ← vector_at g._target_qubit_list 0
    pure { self := g
           state := state.written (g._update_func_dm c.index t.index state.data_c state.dim)
           calls := [.update_func_dm (c.index, t.index) state.data_c state.dim] }

/-- Method `QuantumGate_OneControlOneTarget::copy`: the implicit copy
    constructor. -/
def copy (g : QuantumGate_OneControlOneTarget CTYPE) :
    Returned (QuantumGate_OneControlOneTarget CTYPE) (QuantumGate_OneControlOneTarget CTYPE) :=
  { self := g
    out := { toQuantumGateBase := g.toQuantumGateBase.copy_constructor
             _update_func := g._update_func
             _update_func_dm := g._update_func_dm
             _update_func_gpu := g._update_func_gpu
             _matrix_element := g._matrix_element } }

/-- Method `QuantumGate_OneControlOneTarget::set_matrix`. -/
def set_matrix (g : QuantumGate_OneControlOneTarget CTYPE) (_matrix : ComplexMatrix CTYPE) :
    Returned (QuantumGate_OneControlOneTarget CTYPE) (ComplexMatrix CTYPE) :=
  { self := g, out := g._matrix_element }

/-- Arity invariant of the variant: at least one target index and at least one
    control index. -/
def arity_ok (g : QuantumGate_OneControlOneTarget CTYPE) : Prop :=
  1 ≤ g._target_qubit_list.length ∧ 1 ≤ g._control_qubit_list.length

instance (g : QuantumGate_OneControlOneTarget CTYPE) : Decidable g.arity_ok :=
  inferInstanceAs
    (Decidable (1 ≤ g._target_qubit_list.length ∧ 1 ≤ g._control_qubit_list.length))

end QuantumGate_OneControlOneTarget

/-! ## `QuantumGate_OneQubitRotation` -/

/-- Class `QuantumGate_OneQubitRotation`: the base part, three kernel pointers
    taking a qubit index and an angle, the matrix snapshot and the angle. -/
structure QuantumGate_OneQubitRotation (CTYPE double : Type) extends QuantumGateBase where
  _update_func : UINT → double → List CTYPE → ITYPE → List CTYPE
  _update_func_dm : UINT → double → List CTYPE → ITYPE → List CTYPE
  _update_func_gpu : UINT → double → List CTYPE → ITYPE → Nat → UINT → List CTYPE
  _matrix_element : ComplexMatrix CTYPE
  _angle : double

namespace QuantumGate_OneQubitRotation

variable {CTYPE double : Type}

/-- Method `QuantumGate_OneQubitRotation::update_quantum_state`. -/
def update_quantum_state (_USE_GPU : Bool) (g : QuantumGate_OneQubitRotation CTYPE double)
    (state : QuantumStateBase CTYPE) :
    Except Fault (Updated (QuantumGate_OneQubitRotation CTYPE double) (UINT × double) CTYPE) :=
  if state.is_state_vector then
    if _USE_GPU then
      if state.get_device_name = "gpu" then do
        let t ← vector_at g._target_qubit_list 0
        pure { self := g
               state := state.written (g._update_func_gpu t.index g._angle state.data
                          state.dim state.get_cuda_stream state.device_number)
               calls := [.update_func_gpu (t.index, g._angle) state.data state.dim
                          state.get_cuda_stream state.device_number] }
      else do
        let t ← vector_at g._target_qubit_list 0
        pure { self := g
               state := state.written (g._update_func t.index g._angle state.data_c state.dim)
               calls := [.update_func (t.index, g._angle) state.data_c state.dim] }
    else do
      let t ← vector_at g._target_qubit_list 0
      pure { self := g
             state := state.written (g._update_func t.index g._angle state.data_c state.dim)
             calls := [.update_func (t.index, g._angle) state.data_c state.dim] }
  else do
    let t ← vector_at g._target_qubit_list 0
    pure { self := g
           state := state.written (g._update_func_dm t.index g._angle state.data_c state.dim)
           calls := [.update_func_dm (t.index, g._angle) state.data_c state.dim] }

/-- Method `QuantumGate_OneQubitRotation::copy`: the implicit copy
    constructor, which also copies the angle. -/
def copy (g : QuantumGate_OneQubitRotation CTYPE double) :
    Returned (QuantumGate_OneQubitRotation CTYPE double)
      (QuantumGate_OneQubitRotation CTYPE double) :=
  { self := g
    out := { toQuantumGateBase := g.toQuantumGateBase.copy_constructor
             _update_func := g._update_func
             _update_func_dm := g._update_func_dm
             _update_func_gpu := g._update_func_gpu
             _matrix_element := g._matrix_element
             _angle := g._angle } }

/-- Method `QuantumGate_OneQubitRotation::set_matrix`. -/
def set_matrix (g : QuantumGate_OneQubitRotation CTYPE double) (_matrix : ComplexMatrix CTYPE) :
    Returned (QuantumGate_OneQubitRotation CTYPE double) (ComplexMatrix CTYPE) :=
  { self := g, out := g._matrix_element }

/-- Arity invariant of the variant: at least one target index. -/
def arity_ok (g : QuantumGate_OneQubitRotation CTYPE double) : Prop :=
  1 ≤ g._target_qubit_list.length

instance (g : QuantumGate_OneQubitRotation CTYPE double) : Decidable g.arity_ok :=
  inferInstanceAs (Decidable (1 ≤ g._target_qubit_list.length))

end QuantumGate_OneQubitRotation

/-! ## Vocabulary of the specification -/

/-- The three storage backends of section 4.1 of the spec. -/
inductive Backend where
  | density
  | vector_device
  | vector_host
deriving DecidableEq, Repr

/-- The 3-way dispatch of section 4.1 as the spec words it: density-matrix
    mode first; else device placement, when device support is in the build;
    else host. -/
def spec_backend {CTYPE : Type} (device_support : Bool) (state : QuantumStateBase CTYPE) :
    Backend :=
  if state.is_state_vector = false then .density
  else if device_support = true ∧ state.get_device_name = "gpu" then .vector_device
  else .vector_host

/-- The kernel invocations of a call are exactly one, through
    `_update_func_dm`. -/
def once_dm {Args CTYPE : Type} (calls : List (KernelCall Args CTYPE)) : Prop :=
  calls.countP KernelCall.is_dm = 1 ∧ calls.countP KernelCall.is_host = 0 ∧
    calls.countP KernelCall.is_gpu = 0

/-- The kernel invocations of a call are exactly one, through
    `_update_func`. -/
def once_host {Args CTYPE : Type} (calls : List (KernelCall Args CTYPE)) : Prop :=
  calls.countP KernelCall.is_host = 1 ∧ calls.countP KernelCall.is_dm = 0 ∧
    calls.countP KernelCall.is_gpu = 0

/-- The kernel invocations of a call are exactly one, through
    `_update_func_gpu`. -/
def once_gpu {Args CTYPE : Type} (calls : List (KernelCall Args CTYPE)) : Prop :=
  calls.countP KernelCall.is_gpu = 1 ∧ calls.countP KernelCall.is_host = 0 ∧
    calls.countP KernelCall.is_dm = 0

/-- Which pointer a call went through and what the gate supplied to it: the
    part of an invocation that does not come from the state. -/
def KernelCall.signature {Args CTYPE : Type} (c : KernelCall Args CTYPE) :
    Backend × Args :=
  match c with
  | .update_func a _ _ => (.vector_host, a)
  | .update_func_dm a _ _ => (.density, a)
  | .update_func_gpu a _ _ _ _ => (.vector_device, a)

/-! ## Sample gates and states -/

/-- A kernel that leaves the buffer as it is. -/
def identity_kernel {CTYPE : Type} (buffer : List CTYPE) : List CTYPE := buffer

/-- A kernel that exchanges the two amplitudes of a one-qubit buffer. -/
def flip_kernel {CTYPE : Type} (buffer : List CTYPE) : List CTYPE := buffer.reverse

/-- A single-target gate whose three pointers are bound to the identity
    kernel. -/
def identity_gate {CTYPE : Type} (target : UINT) (m : ComplexMatrix CTYPE) :
    QuantumGate_OneQubit CTYPE :=
  { _target_qubit_list := [⟨target⟩]
    _control_qubit_list := []
    _update_func := fun _ buffer _ => identity_kernel buffer
    _update_func_dm := fun _ buffer _ => identity_kernel buffer
    _update_func_gpu := fun _ buffer _ _ _ => identity_kernel buffer
    _matrix_element := m }

/-- A single-target bit-flip gate on qubit 0. -/
def sample_one_qubit : QuantumGate_OneQubit Int :=
  { _target_qubit_list := [⟨0⟩]
    _control_qubit_list := []
    _update_func := fun _ buffer _ => flip_kernel buffer
    _update_func_dm := fun _ buffer _ => flip_kernel buffer
    _update_func_gpu := fun _ buffer _ _ _ => flip_kernel buffer
    _matrix_element := ⟨2, 2, [0, 1, 1, 0]⟩ }

/-- A two-target gate on qubits 0 and 1. -/
def sample_two_qubit : QuantumGate_TwoQubit Int :=
  { _target_qubit_list := [⟨0⟩, ⟨1⟩]
    _control_qubit_list := []
    _update_func := fun _ _ buffer _ => flip_kernel buffer
    _update_func_dm := fun _ _ buffer _ => flip_kernel buffer
    _update_func_gpu := fun _ _ buffer _ _ _ => flip_kernel buffer
    _matrix_element := ⟨4, 4, [1, 0, 0, 0, 0, 0, 1, 0, 0, 1, 0, 0, 0, 0, 0, 1]⟩ }

/-- A controlled single-target gate, control qubit 1, target qubit 0. -/
def sample_controlled : QuantumGate_OneControlOneTarget Int :=
  { _target_qubit_list := [⟨0⟩]
    _control_qubit_list := [⟨1⟩]
    _update_func := fun _ _ buffer _ => flip_kernel buffer
    _update_func_dm := fun _ _ buffer _ => flip_kernel buffer
    _update_func_gpu := fun _ _ buffer _ _ _ => flip_kernel buffer
    _matrix_element := ⟨2, 2, [0, 1, 1, 0]⟩ }

/-- A rotation gate on qubit 0 with angle 3. -/
def sample_rotation : QuantumGate_OneQubitRotation Int Int :=
  { _target_qubit_list := [⟨0⟩]
    _control_qubit_list := []
    _update_func := fun _ angle buffer _ => buffer.map (fun x => angle * x)
    _update_func_dm := fun _ angle buffer _ => buffer.map (fun x => angle * x)
    _update_func_gpu := fun _ angle buffer _ _ _ => buffer.map (fun x => angle * x)
    _matrix_element := ⟨2, 2, [3, 0, 0, 3]⟩
    _angle := 3 }

/-- A density-matrix state. -/
def sample_state_dm : QuantumStateBase Int :=
  { _is_state_vector := false, _device_name := "cpu", _state_vector := [1, 0, 0, 0], dim := 2
    _cuda_stream := 0, device_number := 0 }

/-- A state vector on the host. -/
def sample_state_host : QuantumStateBase Int :=
  { _is_state_vector := true, _device_name := "cpu", _state_vector := [1, 0, 0, 0], dim := 4
    _cuda_stream := 0, device_number := 0 }

/-- A state vector on the device. -/
def sample_state_gpu : QuantumStateBase Int :=
  { _is_state_vector := true, _device_name := "gpu", _state_vector := [1, 0, 0, 0], dim := 4
    _cuda_stream := 7, device_number := 1 }

/-! ## Helper lemmas -/

theorem vector_at_zero_cons {α : Type} (x : α) (xs : List α) :
    vector_at (x :: xs) 0 = .ok x := by
  simp [vector_at]

theorem vector_at_one_cons {α : Type} (x y : α) (xs : List α) :
    vector_at (x :: y :: xs) 1 = .ok y := by
  simp [vector_at]

theorem vector_at_nil {α : Type} (i : Nat) :
    vector_at ([] : List α) i = .error .out_of_range := by
  simp [vector_at]

theorem vector_at_one_single {α : Type} (x : α) :
    vector_at [x] 1 = .error .out_of_range := by
  simp [vector_at]

theorem ok_bind {ε α β : Type} (a : α) (f : α → Except ε β) :
    (Except.ok a >>= f) = f a := rfl

theorem error_bind {ε α β : Type} (e : ε) (f : α → Except ε β) :
    (Except.error e >>= f) = Except.error e := rfl

theorem vector_at_of_getElem {α : Type} (v : List α) (i : Nat) (x : α)
    (h : v[i]? = some x) : vector_at v i = .ok x := by
  simp [vector_at, h]

theorem getElem_zero_of_one_le {α : Type} (v : List α) (h : 1 ≤ v.length) :
    ∃ x, v[0]? = some x := by
  cases v with
  | nil => simp at h
  | cons x xs => exact ⟨x, by simp⟩

theorem getElem_one_of_two_le {α : Type} (v : List α) (h : 2 ≤ v.length) :
    ∃ x y, v[0]? = some x ∧ v[1]? = some y := by
  match v, h with
  | x :: y :: _, _ => exact ⟨x, y, by simp, by simp⟩

namespace QuantumGate_OneQubit

variable {CTYPE : Type}

theorem update_dm_one (b : Bool) (g : QuantumGate_OneQubit CTYPE) (s : QuantumStateBase CTYPE)
    (t : TargetQubitInfo) (ht : g._target_qubit_list[0]? = some t)
    (hs : s.is_state_vector = false) :
    g.update_quantum_state b s = .ok
      { self := g
        state := s.written (g._update_func_dm t.index s.data_c s.dim)
        calls := [.update_func_dm t.index s.data_c s.dim] } := by
  simp [update_quantum_state, hs, vector_at_of_getElem _ _ _ ht]

theorem update_host_one (b : Bool) (g : QuantumGate_OneQubit CTYPE) (s : QuantumStateBase CTYPE)
    (t : TargetQubitInfo) (ht : g._target_qubit_list[0]? = some t)
    (hs : s.is_state_vector = true) (hh : b = false ∨ s.get_device_name ≠ "gpu") :
    g.update_quantum_state b s = .ok
      { self := g
        state := s.written (g._update_func t.index s.data_c s.dim)
        calls := [.update_func t.index s.data_c s.dim] } := by
  rcases hh with hb | hn
  · simp [update_quantum_state, hs, hb, vector_at_of_getElem _ _ _ ht]
  · cases b <;> simp [update_quantum_state, hs, hn, vector_at_of_getElem _ _ _ ht]

theorem update_gpu_one (g : QuantumGate_OneQubit CTYPE) (s : QuantumStateBase CTYPE)
    (t : TargetQubitInfo) (ht : g._target_qubit_list[0]? = some t)
    (hs : s.is_state_vector = true) (hd : s.get_device_name = "gpu") :
    g.update_quantum_state true s = .ok
      { self := g
        state := s.written (g._update_func_gpu t.index s.data s.dim s.get_cuda_stream
                  s.device_number)
        calls := [.update_func_gpu t.index s.data s.dim s.get_cuda_stream s.device_number] } := by
  simp [update_quantum_state, hs, hd, QuantumGateBase.target_qubit_list,
    vector_at_of_getElem _ _ _ ht]

end QuantumGate_OneQubit

namespace QuantumGate_TwoQubit

variable {CTYPE : Type}

theorem update_dm_two (b : Bool) (g : QuantumGate_TwoQubit CTYPE) (s : QuantumStateBase CTYPE)
    (t0 t1 : TargetQubitInfo) (h0 : g._target_qubit_list[0]? = some t0)
    (h1 : g._target_qubit_list[1]? = some t1)
    (hs : s.is_state_vector = false) :
    g.update_quantum_state b s = .ok
      { self := g
        state := s.written (g._update_func_dm t0.index t1.index s.data_c s.dim)
        calls := [.update_func_dm (t0.index, t1.index) s.data_c s.dim] } := by
  simp [update_quantum_state, hs, vector_at_of_getElem _ _ _ h0, vector_at_of_getElem _ _ _ h1, ok_bind]

theorem update_host_two (b : Bool) (g : QuantumGate_TwoQubit CTYPE) (s : QuantumStateBase CTYPE)
    (t0 t1 : TargetQubitInfo) (h0 : g._target_qubit_list[0]? = some t0)
    (h1 : g._target_qubit_list[1]? = some t1)
    (hs : s.is_state_vector = true) (hh : b = false ∨ s.get_device_name ≠ "gpu") :
    g.update_quantum_state b s = .ok
      { self := g
        state := s.written (g._update_func t0.index t1.index s.data_c s.dim)
        calls := [.update_func (t0.index, t1.index) s.data_c s.dim] } := by
  rcases hh with hb | hn
  · simp [update_quantum_state, hs, hb, vector_at_of_getElem _ _ _ h0, vector_at_of_getElem _ _ _ h1, ok_bind]
  · cases b <;> simp [update_quantum_state, hs, hn, vector_at_of_getElem _ _ _ h0, vector_at_of_getElem _ _ _ h1, ok_bind]

theorem update_gpu_two (g : QuantumGate_TwoQubit CTYPE) (s : QuantumStateBase CTYPE)
    (t0 t1 : TargetQubitInfo) (h0 : g._target_qubit_list[0]? = some t0)
    (h1 : g._target_qubit_list[1]? = some t1)
    (hs : s.is_state_vector = true) (hd : s.get_device_name = "gpu") :
    g.update_quantum_state true s = .ok
      { self := g
        state := s.written (g._update_func_gpu t0.index t1.index s.data s.dim s.get_cuda_stream
                  s.device_number)
        calls := [.update_func_gpu (t0.index, t1.index) s.data s.dim s.get_cuda_stream
                  s.device_number] } := by
  simp [update_quantum_state, hs, hd, vector_at_of_getElem _ _ _ h0, vector_at_of_getElem _ _ _ h1, ok_bind]

end QuantumGate_TwoQubit

namespace QuantumGate_OneControlOneTarget

variable {CTYPE : Type}

theorem update_dm_ctrl (b : Bool) (g : QuantumGate_OneControlOneTarget CTYPE) (s : QuantumStateBase CTYPE)
    (c : ControlQubitInfo) (t : TargetQubitInfo) (hc : g._control_qubit_list[0]? = some c)
    (ht : g._target_qubit_list[0]? = some t)
    (hs : s.is_state_vector = false) :
    g.update_quantum_state b s = .ok
      { self := g
        state := s.written (g._update_func_dm c.index t.index s.data_c s.dim)
        calls := [.update_func_dm (c.index, t.index) s.data_c s.dim] } := by
  simp [update_quantum_state, hs, vector_at_of_getElem _ _ _ hc, vector_at_of_getElem _ _ _ ht, ok_bind]

theorem update_host_ctrl (b : Bool) (g : QuantumGate_OneControlOneTarget CTYPE) (s : QuantumStateBase CTYPE)
    (c : ControlQubitInfo) (t : TargetQubitInfo) (hc : g._control_qubit_list[0]? = some c)
    (ht : g._target_qubit_list[0]? = some t)
    (hs : s.is_state_vector = true) (hh : b = false ∨ s.get_device_name ≠ "gpu") :
    g.update_quantum_state b s = .ok
      { self := g
        state := s.written (g._update_func c.index t.index s.data_c s.dim)
        calls := [.update_func (c.index, t.index) s.data_c s.dim] } := by
  rcases hh with hb | hn
  · simp [update_quantum_state, hs, hb, vector_at_of_getElem _ _ _ hc, vector_at_of_getElem _ _ _ ht, ok_bind]
  · cases b <;> simp [update_quantum_state, hs, hn, vector_at_of_getElem _ _ _ hc, vector_at_of_getElem _ _ _ ht, ok_bind]

theorem update_gpu_ctrl (g : QuantumGate_OneControlOneTarget CTYPE) (s : QuantumStateBase CTYPE)
    (c : ControlQubitInfo) (t : TargetQubitInfo) (hc : g._control_qubit_list[0]? = some c)
    (ht : g._target_qubit_list[0]? = some t)
    (hs : s.is_state_vector = true) (hd : s.get_device_name = "gpu") :
    g.update_quantum_state true s = .ok
      { self := g
        state := s.written (g._update_func_gpu c.index t.index s.data s.dim s.get_cuda_stream
                  s.device_number)
        calls := [.update_func_gpu (c.index, t.index) s.data s.dim s.get_cuda_stream
                  s.device_number] } := by
  simp [update_quantum_state, hs, hd, vector_at_of_getElem _ _ _ hc, vector_at_of_getElem _ _ _ ht, ok_bind]

end QuantumGate_OneControlOneTarget

namespace QuantumGate_OneQubitRotation

variable {CTYPE double : Type}

theorem update_dm_rot (b : Bool) (g : QuantumGate_OneQubitRotation CTYPE double) (s : QuantumStateBase CTYPE)
    (t : TargetQubitInfo) (ht : g._target_qubit_list[0]? = some t)
    (hs : s.is_state_vector = false) :
    g.update_quantum_state b s = .ok
      { self := g
        state := s.written (g._update_func_dm t.index g._angle s.data_c s.dim)
        calls := [.update_func_dm (t.index, g._angle) s.data_c s.dim] } := by
  simp [update_quantum_state, hs, vector_at_of_getElem _ _ _ ht]

theorem update_host_rot (b : Bool) (g : QuantumGate_OneQubitRotation CTYPE double) (s : QuantumStateBase CTYPE)
    (t : TargetQubitInfo) (ht : g._target_qubit_list[0]? = some t)
    (hs : s.is_state_vector = true) (hh : b = false ∨ s.get_device_name ≠ "gpu") :
    g.update_quantum_state b s = .ok
      { self := g
        state := s.written (g._update_func t.index g._angle s.data_c s.dim)
        calls := [.update_func (t.index, g._angle) s.data_c s.dim] } := by
  rcases hh with hb | hn
  · simp [update_quantum_state, hs, hb, vector_at_of_getElem _ _ _ ht]
  · cases b <;> simp [update_quantum_state, hs, hn, vector_at_of_getElem _ _ _ ht]

theorem update_gpu_rot (g : QuantumGate_OneQubitRotation CTYPE double) (s : QuantumStateBase CTYPE)
    (t : TargetQubitInfo) (ht : g._target_qubit_list[0]? = some t)
    (hs : s.is_state_vector = true) (hd : s.get_device_name = "gpu") :
    g.update_quantum_state true s = .ok
      { self := g
        state := s.written (g._update_func_gpu t.index g._angle s.data s.dim s.get_cuda_stream
                  s.device_number)
        calls := [.update_func_gpu (t.index, g._angle) s.data s.dim s.get_cuda_stream
                  s.device_number] } := by
  simp [update_quantum_state, hs, hd, vector_at_of_getElem _ _ _ ht]

end QuantumGate_OneQubitRotation

/-! ### A gate that breaks its arity invariant faults on the lookup -/

theorem QuantumGate_OneQubit.update_fault_one {CTYPE : Type} (b : Bool)
    (g : QuantumGate_OneQubit CTYPE) (s : QuantumStateBase CTYPE) (h : ¬ g.arity_ok) :
    g.update_quantum_state b s = .error .out_of_range := by
  have hl : g._target_qubit_list = [] := by
    cases hg : g._target_qubit_list with
    | nil => rfl
    | cons x xs => exact absurd (by simp [arity_ok, hg]) h
  cases b <;> cases hsv : s.is_state_vector <;> by_cases hd : s.get_device_name = "gpu" <;>
    simp [update_quantum_state, QuantumGateBase.target_qubit_list, hl, hsv, hd, vector_at_nil,
      error_bind]

theorem QuantumGate_TwoQubit.update_fault_two {CTYPE : Type} (b : Bool)
    (g : QuantumGate_TwoQubit CTYPE) (s : QuantumStateBase CTYPE) (h : ¬ g.arity_ok) :
    g.update_quantum_state b s = .error .out_of_range := by
  cases hg : g._target_qubit_list with
  | nil =>
    cases b <;> cases hsv : s.is_state_vector <;> by_cases hd : s.get_device_name = "gpu" <;>
      simp [update_quantum_state, hg, hsv, hd, vector_at_nil, error_bind]
  | cons x xs =>
    cases xs with
    | nil =>
      cases b <;> cases hsv : s.is_state_vector <;> by_cases hd : s.get_device_name = "gpu" <;>
        simp [update_quantum_state, hg, hsv, hd, vector_at_zero_cons, vector_at_one_single,
          ok_bind]
    | cons y ys => exact absurd (by simp [arity_ok, hg]) h

theorem QuantumGate_OneControlOneTarget.update_fault_ctrl {CTYPE : Type} (b : Bool)
    (g : QuantumGate_OneControlOneTarget CTYPE) (s : QuantumStateBase CTYPE)
    (h : ¬ g.arity_ok) :
    g.update_quantum_state b s = .error .out_of_range := by
  cases hc : g._control_qubit_list with
  | nil =>
    cases b <;> cases hsv : s.is_state_vector <;> by_cases hd : s.get_device_name = "gpu" <;>
      simp [update_quantum_state, hc, hsv, hd, vector_at_nil, error_bind]
  | cons c cs =>
    cases ht : g._target_qubit_list with
    | nil =>
      cases b <;> cases hsv : s.is_state_vector <;> by_cases hd : s.get_device_name = "gpu" <;>
        simp [update_quantum_state, hc, ht, hsv, hd, vector_at_zero_cons, vector_at_nil,
          ok_bind]
    | cons t ts => exact absurd (by simp [arity_ok, hc, ht]) h

theorem QuantumGate_OneQubitRotation.update_fault_rot {CTYPE double : Type} (b : Bool)
    (g : QuantumGate_OneQubitRotation CTYPE double) (s : QuantumStateBase CTYPE)
    (h : ¬ g.arity_ok) :
    g.update_quantum_state b s = .error .out_of_range := by
  have hl : g._target_qubit_list = [] := by
    cases hg : g._target_qubit_list with
    | nil => rfl
    | cons x xs => exact absurd (by simp [arity_ok, hg]) h
  cases b <;> cases hsv : s.is_state_vector <;> by_cases hd : s.get_device_name = "gpu" <;>
    simp [update_quantum_state, hl, hsv, hd, vector_at_nil, error_bind]

/-! ### The backend the code selects, case by case -/

theorem backend_cases {CTYPE : Type} (b : Bool) (s : QuantumStateBase CTYPE) :
    (s.is_state_vector = false ∧ spec_backend b s = .density) ∨
    (s.is_state_vector = true ∧ (b = false ∨ s.get_device_name ≠ "gpu") ∧
      spec_backend b s = .vector_host) ∨
    (s.is_state_vector = true ∧ b = true ∧ s.get_device_name = "gpu" ∧
      spec_backend b s = .vector_device) := by
  cases hsv : s.is_state_vector <;> cases b <;> by_cases hd : s.get_device_name = "gpu" <;>
    simp [spec_backend, hsv, hd]

theorem once_dm_single {Args CTYPE : Type} (a : Args) (buffer : List CTYPE) (dim : ITYPE) :
    once_dm [KernelCall.update_func_dm a buffer dim] := by
  simp [once_dm, KernelCall.is_dm, KernelCall.is_host, KernelCall.is_gpu]

theorem once_host_single {Args CTYPE : Type} (a : Args) (buffer : List CTYPE) (dim : ITYPE) :
    once_host [KernelCall.update_func a buffer dim] := by
  simp [once_host, KernelCall.is_dm, KernelCall.is_host, KernelCall.is_gpu]

theorem once_gpu_single {Args CTYPE : Type} (a : Args) (buffer : List CTYPE) (dim : ITYPE)
    (stream : Nat) (device_number : UINT) :
    once_gpu [KernelCall.update_func_gpu a buffer dim stream device_number] := by
  simp [once_gpu, KernelCall.is_dm, KernelCall.is_host, KernelCall.is_gpu]

/-! ## Dispatch -/

/-- C1: for each of the four gate variants (arity invariant in force) and
    every state that reports density-matrix mode, `update_quantum_state`
    invokes `_update_func_dm` exactly once and neither `_update_func` nor
    `_update_func_gpu`, whatever device name the state reports and whether or
    not device support is in the build. -/
theorem density_mode_invokes_dm_kernel_once {CTYPE double : Type} (device_support : Bool)
    (s : QuantumStateBase CTYPE)
    (g1 : QuantumGate_OneQubit CTYPE) (g2 : QuantumGate_TwoQubit CTYPE)
    (g3 : QuantumGate_OneControlOneTarget CTYPE)
    (g4 : QuantumGate_OneQubitRotation CTYPE double)
    (hs : s.is_state_vector = false)
    (h1 : g1.arity_ok) (h2 : g2.arity_ok) (h3 : g3.arity_ok) (h4 : g4.arity_ok) :
    (∃ r, g1.update_quantum_state device_support s = .ok r ∧ once_dm r.calls) ∧
    (∃ r, g2.update_quantum_state device_support s = .ok r ∧ once_dm r.calls) ∧
    (∃ r, g3.update_quantum_state device_support s = .ok r ∧ once_dm r.calls) ∧
    (∃ r, g4.update_quantum_state device_support s = .ok r ∧ once_dm r.calls) := by
  obtain ⟨t1, e1⟩ := getElem_zero_of_one_le _ h1
  obtain ⟨a2, b2, ea, eb⟩ := getElem_one_of_two_le _ h2
  obtain ⟨t3, e3⟩ := getElem_zero_of_one_le _ h3.1
  obtain ⟨c3, f3⟩ := getElem_zero_of_one_le _ h3.2
  obtain ⟨t4, e4⟩ := getElem_zero_of_one_le _ h4
  exact ⟨⟨_, g1.update_dm_one device_support s t1 e1 hs, once_dm_single _ _ _⟩,
    ⟨_, g2.update_dm_two device_support s a2 b2 ea eb hs, once_dm_single _ _ _⟩,
    ⟨_, g3.update_dm_ctrl device_support s c3 t3 f3 e3 hs, once_dm_single _ _ _⟩,
    ⟨_, g4.update_dm_rot device_support s t4 e4 hs, once_dm_single _ _ _⟩⟩

/-- Witness of C1: the sample gates on the sample density-matrix state, in
    a build with device support. -/
theorem density_mode_invokes_dm_kernel_once_witness :
    (sample_state_dm.is_state_vector = false ∧ sample_one_qubit.arity_ok ∧
      sample_two_qubit.arity_ok ∧ sample_controlled.arity_ok ∧ sample_rotation.arity_ok) ∧
    ((∃ r, sample_one_qubit.update_quantum_state true sample_state_dm = .ok r ∧
        once_dm r.calls) ∧
     (∃ r, sample_two_qubit.update_quantum_state true sample_state_dm = .ok r ∧
        once_dm r.calls) ∧
     (∃ r, sample_controlled.update_quantum_state true sample_state_dm = .ok r ∧
        once_dm r.calls) ∧
     (∃ r, sample_rotation.update_quantum_state true sample_state_dm = .ok r ∧
        once_dm r.calls)) :=
  ⟨⟨rfl, by decide, by decide, by decide, by decide⟩,
    density_mode_invokes_dm_kernel_once true sample_state_dm sample_one_qubit sample_two_qubit
      sample_controlled sample_rotation rfl (by decide) (by decide) (by decide) (by decide)⟩

/-- C2: for each of the four gate variants (arity invariant in force) and
    every state in state-vector mode that is on the host (its device name is
    not "gpu"), or any state-vector-mode state at all when the build has no
    device support, `update_quantum_state` invokes `_update_func` exactly once
    and neither `_update_func_dm` nor `_update_func_gpu`. -/
theorem host_vector_invokes_host_kernel_once {CTYPE double : Type} (device_support : Bool)
    (s : QuantumStateBase CTYPE)
    (g1 : QuantumGate_OneQubit CTYPE) (g2 : QuantumGate_TwoQubit CTYPE)
    (g3 : QuantumGate_OneControlOneTarget CTYPE)
    (g4 : QuantumGate_OneQubitRotation CTYPE double)
    (hs : s.is_state_vector = true)
    (hh : device_support = false ∨ s.get_device_name ≠ "gpu")
    (h1 : g1.arity_ok) (h2 : g2.arity_ok) (h3 : g3.arity_ok) (h4 : g4.arity_ok) :
    (∃ r, g1.update_quantum_state device_support s = .ok r ∧ once_host r.calls) ∧
    (∃ r, g2.update_quantum_state device_support s = .ok r ∧ once_host r.calls) ∧
    (∃ r, g3.update_quantum_state device_support s = .ok r ∧ once_host r.calls) ∧
    (∃ r, g4.update_quantum_state device_support s = .ok r ∧ once_host r.calls) := by
  obtain ⟨t1, e1⟩ := getElem_zero_of_one_le _ h1
  obtain ⟨a2, b2, ea, eb⟩ := getElem_one_of_two_le _ h2
  obtain ⟨t3, e3⟩ := getElem_zero_of_one_le _ h3.1
  obtain ⟨c3, f3⟩ := getElem_zero_of_one_le _ h3.2
  obtain ⟨t4, e4⟩ := getElem_zero_of_one_le _ h4
  exact ⟨⟨_, g1.update_host_one device_support s t1 e1 hs hh, once_host_single _ _ _⟩,
    ⟨_, g2.update_host_two device_support s a2 b2 ea eb hs hh, once_host_single _ _ _⟩,
    ⟨_, g3.update_host_ctrl device_support s c3 t3 f3 e3 hs hh, once_host_single _ _ _⟩,
    ⟨_, g4.update_host_rot device_support s t4 e4 hs hh, once_host_single _ _ _⟩⟩

/-- Witness of C2: the sample gates on a state vector that reports the
    device name "gpu", in a build without device support. -/
theorem host_vector_invokes_host_kernel_once_witness :
    (sample_state_gpu.is_state_vector = true ∧
      (false = false ∨ sample_state_gpu.get_device_name ≠ "gpu") ∧
      sample_one_qubit.arity_ok ∧ sample_two_qubit.arity_ok ∧ sample_controlled.arity_ok ∧
      sample_rotation.arity_ok) ∧
    ((∃ r, sample_one_qubit.update_quantum_state false sample_state_gpu = .ok r ∧
        once_host r.calls) ∧
     (∃ r, sample_two_qubit.update_quantum_state false sample_state_gpu = .ok r ∧
        once_host r.calls) ∧
     (∃ r, sample_controlled.update_quantum_state false sample_state_gpu = .ok r ∧
        once_host r.calls) ∧
     (∃ r, sample_rotation.update_quantum_state false sample_state_gpu = .ok r ∧
        once_host r.calls)) :=
  ⟨⟨rfl, Or.inl rfl, by decide, by decide, by decide, by decide⟩,
    host_vector_invokes_host_kernel_once false sample_state_gpu sample_one_qubit
      sample_two_qubit sample_controlled sample_rotation rfl (Or.inl rfl) (by decide)
      (by decide) (by decide) (by decide)⟩

/-- C3: with device support in the build, for each of the four gate variants
    (the single-target one included) and every state-vector-mode state that
    reports the device name "gpu", `update_quantum_state` invokes
    `_update_func_gpu` exactly once and no other kernel; the call receives the
    qubit index or indices (and the angle, for a rotation) that `_update_func`
    receives on a host state, in the same order, followed by the buffer, the
    dimension, the compute stream and the device number of the state. -/
theorem device_vector_invokes_gpu_kernel_once {CTYPE double : Type}
    (s s_host : QuantumStateBase CTYPE)
    (g1 : QuantumGate_OneQubit CTYPE) (g2 : QuantumGate_TwoQubit CTYPE)
    (g3 : QuantumGate_OneControlOneTarget CTYPE)
    (g4 : QuantumGate_OneQubitRotation CTYPE double)
    (t1 a2 b2 t3 t4 : TargetQubitInfo) (c3 : ControlQubitInfo)
    (hs : s.is_state_vector = true) (hd : s.get_device_name = "gpu")
    (hs_host : s_host.is_state_vector = true) (hd_host : s_host.get_device_name ≠ "gpu")
    (e1 : g1._target_qubit_list[0]? = some t1)
    (ea : g2._target_qubit_list[0]? = some a2) (eb : g2._target_qubit_list[1]? = some b2)
    (f3 : g3._control_qubit_list[0]? = some c3) (e3 : g3._target_qubit_list[0]? = some t3)
    (e4 : g4._target_qubit_list[0]? = some t4) :
    ((∃ r, g1.update_quantum_state true s = .ok r ∧ once_gpu r.calls ∧
        r.calls = [.update_func_gpu t1.index s.data s.dim s.get_cuda_stream s.device_number]) ∧
      (∃ r, g1.update_quantum_state true s_host = .ok r ∧
        r.calls = [.update_func t1.index s_host.data_c s_host.dim])) ∧
    ((∃ r, g2.update_quantum_state true s = .ok r ∧ once_gpu r.calls ∧
        r.calls = [.update_func_gpu (a2.index, b2.index) s.data s.dim s.get_cuda_stream
          s.device_number]) ∧
      (∃ r, g2.update_quantum_state true s_host = .ok r ∧
        r.calls = [.update_func (a2.index, b2.index) s_host.data_c s_host.dim])) ∧
    ((∃ r, g3.update_quantum_state true s = .ok r ∧ once_gpu r.calls ∧
        r.calls = [.update_func_gpu (c3.index, t3.index) s.data s.dim s.get_cuda_stream
          s.device_number]) ∧
      (∃ r, g3.update_quantum_state true s_host = .ok r ∧
        r.calls = [.update_func (c3.index, t3.index) s_host.data_c s_host.dim])) ∧
    ((∃ r, g4.update_quantum_state true s = .ok r ∧ once_gpu r.calls ∧
        r.calls = [.update_func_gpu (t4.index, g4._angle) s.data s.dim s.get_cuda_stream
          s.device_number]) ∧
      (∃ r, g4.update_quantum_state true s_host = .ok r ∧
        r.calls = [.update_func (t4.index, g4._angle) s_host.data_c s_host.dim])) :=
  ⟨⟨⟨_, g1.update_gpu_one s t1 e1 hs hd, once_gpu_single _ _ _ _ _, rfl⟩,
      ⟨_, g1.update_host_one true s_host t1 e1 hs_host (Or.inr hd_host), rfl⟩⟩,
    ⟨⟨_, g2.update_gpu_two s a2 b2 ea eb hs hd, once_gpu_single _ _ _ _ _, rfl⟩,
      ⟨_, g2.update_host_two true s_host a2 b2 ea eb hs_host (Or.inr hd_host), rfl⟩⟩,
    ⟨⟨_, g3.update_gpu_ctrl s c3 t3 f3 e3 hs hd, once_gpu_single _ _ _ _ _, rfl⟩,
      ⟨_, g3.update_host_ctrl true s_host c3 t3 f3 e3 hs_host (Or.inr hd_host), rfl⟩⟩,
    ⟨⟨_, g4.update_gpu_rot s t4 e4 hs hd, once_gpu_single _ _ _ _ _, rfl⟩,
      ⟨_, g4.update_host_rot true s_host t4 e4 hs_host (Or.inr hd_host), rfl⟩⟩⟩

/-- Witness of C3: the sample gates on the sample device state, compared
    with the sample host state. -/
theorem device_vector_invokes_gpu_kernel_once_witness :
    (∃ r, sample_one_qubit.update_quantum_state true sample_state_gpu = .ok r ∧
        r.calls = [.update_func_gpu 0 [1, 0, 0, 0] 4 7 1]) ∧
    (∃ r, sample_two_qubit.update_quantum_state true sample_state_gpu = .ok r ∧
        r.calls = [.update_func_gpu (0, 1) [1, 0, 0, 0] 4 7 1]) ∧
    (∃ r, sample_controlled.update_quantum_state true sample_state_gpu = .ok r ∧
        r.calls = [.update_func_gpu (1, 0) [1, 0, 0, 0] 4 7 1]) ∧
    (∃ r, sample_rotation.update_quantum_state true sample_state_gpu = .ok r ∧
        r.calls = [.update_func_gpu (0, 3) [1, 0, 0, 0] 4 7 1]) := by
  have h := device_vector_invokes_gpu_kernel_once sample_state_gpu sample_state_host
    sample_one_qubit sample_two_qubit sample_controlled sample_rotation
    ⟨0⟩ ⟨0⟩ ⟨1⟩ ⟨0⟩ ⟨0⟩ ⟨1⟩ rfl rfl rfl (by decide) rfl rfl rfl rfl rfl rfl
  obtain ⟨⟨⟨r1, h1, -, c1⟩, -⟩, ⟨⟨r2, h2, -, c2⟩, -⟩, ⟨⟨r3, h3, -, c3⟩, -⟩, ⟨⟨r4, h4, -, c4⟩, -⟩⟩ := h
  exact ⟨⟨r1, h1, c1⟩, ⟨r2, h2, c2⟩, ⟨r3, h3, c3⟩, ⟨r4, h4, c4⟩⟩

/-! ## Arguments and resulting buffer -/

/-- C4: for every gate and every state, the state after
    `update_quantum_state` is the state before with its buffer replaced by the
    result of the one selected kernel on the argument tuple of the variant:
    (target 0, buffer, dim); (target 0, target 1, buffer, dim); (control 0,
    target 0, buffer, dim); (target 0, angle, buffer, dim), the device kernel
    receiving the compute stream and the device number in addition. A
    single-target gate bound to the identity kernel leaves the one-qubit state
    vector `[1, 0]` as it is. -/
theorem buffer_is_selected_kernel_on_table_arguments {CTYPE double : Type}
    (device_support : Bool) (s : QuantumStateBase CTYPE)
    (g1 : QuantumGate_OneQubit CTYPE) (g2 : QuantumGate_TwoQubit CTYPE)
    (g3 : QuantumGate_OneControlOneTarget CTYPE)
    (g4 : QuantumGate_OneQubitRotation CTYPE double)
    (t1 a2 b2 t3 t4 : TargetQubitInfo) (c3 : ControlQubitInfo)
    (e1 : g1._target_qubit_list[0]? = some t1)
    (ea : g2._target_qubit_list[0]? = some a2) (eb : g2._target_qubit_list[1]? = some b2)
    (f3 : g3._control_qubit_list[0]? = some c3) (e3 : g3._target_qubit_list[0]? = some t3)
    (e4 : g4._target_qubit_list[0]? = some t4) :
    (∃ r, g1.update_quantum_state device_support s = .ok r ∧ r.calls.length = 1 ∧
      r.state = s.written (match spec_backend device_support s with
        | .density => g1._update_func_dm t1.index s.data_c s.dim
        | .vector_device =>
            g1._update_func_gpu t1.index s.data s.dim s.get_cuda_stream s.device_number
        | .vector_host => g1._update_func t1.index s.data_c s.dim)) ∧
    (∃ r, g2.update_quantum_state device_support s = .ok r ∧ r.calls.length = 1 ∧
      r.state = s.written (match spec_backend device_support s with
        | .density => g2._update_func_dm a2.index b2.index s.data_c s.dim
        | .vector_device =>
            g2._update_func_gpu a2.index b2.index s.data s.dim s.get_cuda_stream s.device_number
        | .vector_host => g2._update_func a2.index b2.index s.data_c s.dim)) ∧
    (∃ r, g3.update_quantum_state device_support s = .ok r ∧ r.calls.length = 1 ∧
      r.state = s.written (match spec_backend device_support s with
        | .density => g3._update_func_dm c3.index t3.index s.data_c s.dim
        | .vector_device =>
            g3._update_func_gpu c3.index t3.index s.data s.dim s.get_cuda_stream s.device_number
        | .vector_host => g3._update_func c3.index t3.index s.data_c s.dim)) ∧
    (∃ r, g4.update_quantum_state device_support s = .ok r ∧ r.calls.length = 1 ∧
      r.state = s.written (match spec_backend device_support s with
        | .density => g4._update_func_dm t4.index g4._angle s.data_c s.dim
        | .vector_device =>
            g4._update_func_gpu t4.index g4._angle s.data s.dim s.get_cuda_stream s.device_number
        | .vector_host => g4._update_func t4.index g4._angle s.data_c s.dim)) ∧
    (∀ (b : Bool) (name : String) (stream : Nat) (device : UINT) (target : UINT)
        (m : ComplexMatrix CTYPE) (one zero : CTYPE),
      ((identity_gate target m).update_quantum_state b
          { _is_state_vector := true, _device_name := name, _state_vector := [one, zero]
            dim := 2, _cuda_stream := stream, device_number := device }).map
        (fun r => r.state.data_c) = .ok [one, zero]) := by
  refine ⟨?_, ?_, ?_, ?_, ?_⟩
  · rcases backend_cases device_support s with ⟨hs, hb⟩ | ⟨hs, hh, hb⟩ | ⟨hs, hg, hd, hb⟩
    · exact ⟨_, g1.update_dm_one device_support s t1 e1 hs, rfl, by rw [hb]⟩
    · exact ⟨_, g1.update_host_one device_support s t1 e1 hs hh, rfl, by rw [hb]⟩
    · subst hg
      exact ⟨_, g1.update_gpu_one s t1 e1 hs hd, rfl, by rw [hb]⟩
  · rcases backend_cases device_support s with ⟨hs, hb⟩ | ⟨hs, hh, hb⟩ | ⟨hs, hg, hd, hb⟩
    · exact ⟨_, g2.update_dm_two device_support s a2 b2 ea eb hs, rfl, by rw [hb]⟩
    · exact ⟨_, g2.update_host_two device_support s a2 b2 ea eb hs hh, rfl, by rw [hb]⟩
    · subst hg
      exact ⟨_, g2.update_gpu_two s a2 b2 ea eb hs hd, rfl, by rw [hb]⟩
  · rcases backend_cases device_support s with ⟨hs, hb⟩ | ⟨hs, hh, hb⟩ | ⟨hs, hg, hd, hb⟩
    · exact ⟨_, g3.update_dm_ctrl device_support s c3 t3 f3 e3 hs, rfl, by rw [hb]⟩
    · exact ⟨_, g3.update_host_ctrl device_support s c3 t3 f3 e3 hs hh, rfl, by rw [hb]⟩
    · subst hg
      exact ⟨_, g3.update_gpu_ctrl s c3 t3 f3 e3 hs hd, rfl, by rw [hb]⟩
  · rcases backend_cases device_support s with ⟨hs, hb⟩ | ⟨hs, hh, hb⟩ | ⟨hs, hg, hd, hb⟩
    · exact ⟨_, g4.update_dm_rot device_support s t4 e4 hs, rfl, by rw [hb]⟩
    · exact ⟨_, g4.update_host_rot device_support s t4 e4 hs hh, rfl, by rw [hb]⟩
    · subst hg
      exact ⟨_, g4.update_gpu_rot s t4 e4 hs hd, rfl, by rw [hb]⟩
  · intro b name stream device target m one zero
    cases b <;> by_cases hd : name = "gpu" <;>
      simp [QuantumGate_OneQubit.update_quantum_state, identity_gate, identity_kernel,
        QuantumStateBase.is_state_vector, QuantumStateBase.get_device_name,
        QuantumStateBase.data, QuantumStateBase.data_c, QuantumStateBase.written,
        QuantumGateBase.target_qubit_list, vector_at, hd, ok_bind, Except.map]

/-- Witness of C4: the sample gates on the sample host state, in a build
    without device support. -/
theorem buffer_is_selected_kernel_on_table_arguments_witness :
    (∃ r, sample_one_qubit.update_quantum_state false sample_state_host = .ok r ∧
        r.state.data_c = [0, 0, 0, 1]) ∧
    (∃ r, sample_two_qubit.update_quantum_state false sample_state_host = .ok r ∧
        r.state.data_c = [0, 0, 0, 1]) ∧
    (∃ r, sample_controlled.update_quantum_state false sample_state_host = .ok r ∧
        r.state.data_c = [0, 0, 0, 1]) ∧
    (∃ r, sample_rotation.update_quantum_state false sample_state_host = .ok r ∧
        r.state.data_c = [3, 0, 0, 0]) := by
  have h := buffer_is_selected_kernel_on_table_arguments false sample_state_host
    sample_one_qubit sample_two_qubit sample_controlled sample_rotation
    ⟨0⟩ ⟨0⟩ ⟨1⟩ ⟨0⟩ ⟨0⟩ ⟨1⟩ rfl rfl rfl rfl rfl rfl
  obtain ⟨⟨r1, h1, -, c1⟩, ⟨r2, h2, -, c2⟩, ⟨r3, h3, -, c3⟩, ⟨r4, h4, -, c4⟩, -⟩ := h
  refine ⟨⟨r1, h1, ?_⟩, ⟨r2, h2, ?_⟩, ⟨r3, h3, ?_⟩, ⟨r4, h4, ?_⟩⟩
  · rw [c1]; decide
  · rw [c2]; decide
  · rw [c3]; decide
  · rw [c4]; decide

/-! ## `copy` -/

/-- C5: for each of the four gate variants, `copy()` returns a gate of the
    same variant with the target-qubit index list, the control-qubit list, the
    three kernel pointers, `_matrix_element` and (rotation) `_angle` of the
    original, and the original is as it was. -/
theorem copy_is_field_for_field_duplicate {CTYPE double : Type}
    (g1 : QuantumGate_OneQubit CTYPE) (g2 : QuantumGate_TwoQubit CTYPE)
    (g3 : QuantumGate_OneControlOneTarget CTYPE)
    (g4 : QuantumGate_OneQubitRotation CTYPE double) :
    (g1.copy.out._target_qubit_list = g1._target_qubit_list ∧
      g1.copy.out._control_qubit_list = g1._control_qubit_list ∧
      g1.copy.out._update_func = g1._update_func ∧
      g1.copy.out._update_func_dm = g1._update_func_dm ∧
      g1.copy.out._update_func_gpu = g1._update_func_gpu ∧
      g1.copy.out._matrix_element = g1._matrix_element ∧
      g1.copy.self = g1) ∧
    (g2.copy.out._target_qubit_list = g2._target_qubit_list ∧
      g2.copy.out._control_qubit_list = g2._control_qubit_list ∧
      g2.copy.out._update_func = g2._update_func ∧
      g2.copy.out._update_func_dm = g2._update_func_dm ∧
      g2.copy.out._update_func_gpu = g2._update_func_gpu ∧
      g2.copy.out._matrix_element = g2._matrix_element ∧
      g2.copy.self = g2) ∧
    (g3.copy.out._target_qubit_list = g3._target_qubit_list ∧
      g3.copy.out._control_qubit_list = g3._control_qubit_list ∧
      g3.copy.out._update_func = g3._update_func ∧
      g3.copy.out._update_func_dm = g3._update_func_dm ∧
      g3.copy.out._update_func_gpu = g3._update_func_gpu ∧
      g3.copy.out._matrix_element = g3._matrix_element ∧
      g3.copy.self = g3) ∧
    (g4.copy.out._target_qubit_list = g4._target_qubit_list ∧
      g4.copy.out._control_qubit_list = g4._control_qubit_list ∧
      g4.copy.out._update_func = g4._update_func ∧
      g4.copy.out._update_func_dm = g4._update_func_dm ∧
      g4.copy.out._update_func_gpu = g4._update_func_gpu ∧
      g4.copy.out._matrix_element = g4._matrix_element ∧
      g4.copy.out._angle = g4._angle ∧
      g4.copy.self = g4) :=
  ⟨⟨rfl, rfl, rfl, rfl, rfl, rfl, rfl⟩, ⟨rfl, rfl, rfl, rfl, rfl, rfl, rfl⟩,
    ⟨rfl, rfl, rfl, rfl, rfl, rfl, rfl⟩, ⟨rfl, rfl, rfl, rfl, rfl, rfl, rfl, rfl⟩⟩

theorem QuantumGate_OneQubit.copy_out_one {CTYPE : Type} (g : QuantumGate_OneQubit CTYPE) :
    g.copy.out = g := rfl

theorem QuantumGate_TwoQubit.copy_out_two {CTYPE : Type} (g : QuantumGate_TwoQubit CTYPE) :
    g.copy.out = g := rfl

theorem QuantumGate_OneControlOneTarget.copy_out_ctrl {CTYPE : Type}
    (g : QuantumGate_OneControlOneTarget CTYPE) : g.copy.out = g := rfl

theorem QuantumGate_OneQubitRotation.copy_out_rot {CTYPE double : Type}
    (g : QuantumGate_OneQubitRotation CTYPE double) : g.copy.out = g := rfl

/-! ### Shape of a successful update -/

theorem QuantumGate_OneQubit.update_shape_one {CTYPE : Type} (b : Bool) (g : QuantumGate_OneQubit CTYPE)
    (s : QuantumStateBase CTYPE) (t : TargetQubitInfo)
    (ht : g._target_qubit_list[0]? = some t) :
    ∃ r, g.update_quantum_state b s = .ok r ∧ r.self = g ∧
      r.state = s.written r.state.data_c ∧
      r.calls.map KernelCall.signature = [(spec_backend b s, t.index)] := by
  rcases backend_cases b s with ⟨hs, hb⟩ | ⟨hs, hh, hb⟩ | ⟨hs, hg, hd, hb⟩
  · exact ⟨_, g.update_dm_one b s t ht hs, rfl, rfl, by simp [KernelCall.signature, hb]⟩
  · exact ⟨_, g.update_host_one b s t ht hs hh, rfl, rfl, by simp [KernelCall.signature, hb]⟩
  · subst hg
    exact ⟨_, g.update_gpu_one s t ht hs hd, rfl, rfl, by simp [KernelCall.signature, hb]⟩

theorem QuantumGate_OneQubit.update_ok_iff_one {CTYPE : Type} (b : Bool) (g : QuantumGate_OneQubit CTYPE)
    (s : QuantumStateBase CTYPE) :
    (∃ r, g.update_quantum_state b s = .ok r ∧ r.calls.length = 1) ↔ g.arity_ok := by
  constructor
  · rintro ⟨r, hr, -⟩
    by_contra hn
    rw [g.update_fault_one b s hn] at hr
    cases hr
  · intro h
    obtain ⟨t, ht⟩ := getElem_zero_of_one_le _ h
    obtain ⟨r, hr, -, -, hc⟩ := g.update_shape_one b s t ht
    refine ⟨r, hr, ?_⟩
    have := congrArg List.length hc
    simpa using this

theorem QuantumGate_OneQubit.update_fault_iff_one {CTYPE : Type} (b : Bool) (g : QuantumGate_OneQubit CTYPE)
    (s : QuantumStateBase CTYPE) :
    g.update_quantum_state b s = .error .out_of_range ↔ ¬ g.arity_ok := by
  constructor
  · intro he ha
    obtain ⟨r, hr, -⟩ := (g.update_ok_iff_one b s).mpr ha
    rw [he] at hr
    cases hr
  · exact g.update_fault_one b s

theorem QuantumGate_TwoQubit.update_shape_two {CTYPE : Type} (b : Bool) (g : QuantumGate_TwoQubit CTYPE)
    (s : QuantumStateBase CTYPE) (t0 t1 : TargetQubitInfo)
    (h0 : g._target_qubit_list[0]? = some t0) (h1 : g._target_qubit_list[1]? = some t1) :
    ∃ r, g.update_quantum_state b s = .ok r ∧ r.self = g ∧
      r.state = s.written r.state.data_c ∧
      r.calls.map KernelCall.signature = [(spec_backend b s, (t0.index, t1.index))] := by
  rcases backend_cases b s with ⟨hs, hb⟩ | ⟨hs, hh, hb⟩ | ⟨hs, hg, hd, hb⟩
  · exact ⟨_, g.update_dm_two b s t0 t1 h0 h1 hs, rfl, rfl, by simp [KernelCall.signature, hb]⟩
  · exact ⟨_, g.update_host_two b s t0 t1 h0 h1 hs hh, rfl, rfl, by simp [KernelCall.signature, hb]⟩
  · subst hg
    exact ⟨_, g.update_gpu_two s t0 t1 h0 h1 hs hd, rfl, rfl, by simp [KernelCall.signature, hb]⟩

theorem QuantumGate_TwoQubit.update_ok_iff_two {CTYPE : Type} (b : Bool) (g : QuantumGate_TwoQubit CTYPE)
    (s : QuantumStateBase CTYPE) :
    (∃ r, g.update_quantum_state b s = .ok r ∧ r.calls.length = 1) ↔ g.arity_ok := by
  constructor
  · rintro ⟨r, hr, -⟩
    by_contra hn
    rw [g.update_fault_two b s hn] at hr
    cases hr
  · intro h
    obtain ⟨t0, t1, h0, h1⟩ := getElem_one_of_two_le _ h
    obtain ⟨r, hr, -, -, hc⟩ := g.update_shape_two b s t0 t1 h0 h1
    refine ⟨r, hr, ?_⟩
    have := congrArg List.length hc
    simpa using this

theorem QuantumGate_TwoQubit.update_fault_iff_two {CTYPE : Type} (b : Bool) (g : QuantumGate_TwoQubit CTYPE)
    (s : QuantumStateBase CTYPE) :
    g.update_quantum_state b s = .error .out_of_range ↔ ¬ g.arity_ok := by
  constructor
  · intro he ha
    obtain ⟨r, hr, -⟩ := (g.update_ok_iff_two b s).mpr ha
    rw [he] at hr
    cases hr
  · exact g.update_fault_two b s

theorem QuantumGate_OneControlOneTarget.update_shape_ctrl {CTYPE : Type} (b : Bool) (g : QuantumGate_OneControlOneTarget CTYPE)
    (s : QuantumStateBase CTYPE) (c : ControlQubitInfo) (t : TargetQubitInfo)
    (hc : g._control_qubit_list[0]? = some c) (ht : g._target_qubit_list[0]? = some t) :
    ∃ r, g.update_quantum_state b s = .ok r ∧ r.self = g ∧
      r.state = s.written r.state.data_c ∧
      r.calls.map KernelCall.signature = [(spec_backend b s, (c.index, t.index))] := by
  rcases backend_cases b s with ⟨hs, hb⟩ | ⟨hs, hh, hb⟩ | ⟨hs, hg, hd, hb⟩
  · exact ⟨_, g.update_dm_ctrl b s c t hc ht hs, rfl, rfl, by simp [KernelCall.signature, hb]⟩
  · exact ⟨_, g.update_host_ctrl b s c t hc ht hs hh, rfl, rfl, by simp [KernelCall.signature, hb]⟩
  · subst hg
    exact ⟨_, g.update_gpu_ctrl s c t hc ht hs hd, rfl, rfl, by simp [KernelCall.signature, hb]⟩

theorem QuantumGate_OneControlOneTarget.update_ok_iff_ctrl {CTYPE : Type} (b : Bool) (g : QuantumGate_OneControlOneTarget CTYPE)
    (s : QuantumStateBase CTYPE) :
    (∃ r, g.update_quantum_state b s = .ok r ∧ r.calls.length = 1) ↔ g.arity_ok := by
  constructor
  · rintro ⟨r, hr, -⟩
    by_contra hn
    rw [g.update_fault_ctrl b s hn] at hr
    cases hr
  · intro h
    obtain ⟨t, ht⟩ := getElem_zero_of_one_le _ h.1
    obtain ⟨c, hc⟩ := getElem_zero_of_one_le _ h.2
    obtain ⟨r, hr, -, -, hc⟩ := g.update_shape_ctrl b s c t hc ht
    refine ⟨r, hr, ?_⟩
    have := congrArg List.length hc
    simpa using this

theorem QuantumGate_OneControlOneTarget.update_fault_iff_ctrl {CTYPE : Type} (b : Bool) (g : QuantumGate_OneControlOneTarget CTYPE)
    (s : QuantumStateBase CTYPE) :
    g.update_quantum_state b s = .error .out_of_range ↔ ¬ g.arity_ok := by
  constructor
  · intro he ha
    obtain ⟨r, hr, -⟩ := (g.update_ok_iff_ctrl b s).mpr ha
    rw [he] at hr
    cases hr
  · exact g.update_fault_ctrl b s

theorem QuantumGate_OneQubitRotation.update_shape_rot {CTYPE double : Type} (b : Bool) (g : QuantumGate_OneQubitRotation CTYPE double)
    (s : QuantumStateBase CTYPE) (t : TargetQubitInfo)
    (ht : g._target_qubit_list[0]? = some t) :
    ∃ r, g.update_quantum_state b s = .ok r ∧ r.self = g ∧
      r.state = s.written r.state.data_c ∧
      r.calls.map KernelCall.signature = [(spec_backend b s, (t.index, g._angle))] := by
  rcases backend_cases b s with ⟨hs, hb⟩ | ⟨hs, hh, hb⟩ | ⟨hs, hg, hd, hb⟩
  · exact ⟨_, g.update_dm_rot b s t ht hs, rfl, rfl, by simp [KernelCall.signature, hb]⟩
  · exact ⟨_, g.update_host_rot b s t ht hs hh, rfl, rfl, by simp [KernelCall.signature, hb]⟩
  · subst hg
    exact ⟨_, g.update_gpu_rot s t ht hs hd, rfl, rfl, by simp [KernelCall.signature, hb]⟩

theorem QuantumGate_OneQubitRotation.update_ok_iff_rot {CTYPE double : Type} (b : Bool) (g : QuantumGate_OneQubitRotation CTYPE double)
    (s : QuantumStateBase CTYPE) :
    (∃ r, g.update_quantum_state b s = .ok r ∧ r.calls.length = 1) ↔ g.arity_ok := by
  constructor
  · rintro ⟨r, hr, -⟩
    by_contra hn
    rw [g.update_fault_rot b s hn] at hr
    cases hr
  · intro h
    obtain ⟨t, ht⟩ := getElem_zero_of_one_le _ h
    obtain ⟨r, hr, -, -, hc⟩ := g.update_shape_rot b s t ht
    refine ⟨r, hr, ?_⟩
    have := congrArg List.length hc
    simpa using this

theorem QuantumGate_OneQubitRotation.update_fault_iff_rot {CTYPE double : Type} (b : Bool) (g : QuantumGate_OneQubitRotation CTYPE double)
    (s : QuantumStateBase CTYPE) :
    g.update_quantum_state b s = .error .out_of_range ↔ ¬ g.arity_ok := by
  constructor
  · intro he ha
    obtain ⟨r, hr, -⟩ := (g.update_ok_iff_rot b s).mpr ha
    rw [he] at hr
    cases hr
  · exact g.update_fault_rot b s

theorem spec_backend_written {CTYPE : Type} (b : Bool) (s : QuantumStateBase CTYPE)
    (buffer : List CTYPE) : spec_backend b (s.written buffer) = spec_backend b s := rfl

theorem written_frame {CTYPE : Type} (s s1 : QuantumStateBase CTYPE)
    (h : s1 = s.written s1.data_c) :
    s1.is_state_vector = s.is_state_vector ∧ s1.get_device_name = s.get_device_name ∧
      s1.dim = s.dim ∧ s1.get_cuda_stream = s.get_cuda_stream ∧
      s1.device_number = s.device_number := by
  refine ⟨?_, ?_, ?_, ?_, ?_⟩ <;> rw [h] <;> rfl

theorem spec_backend_congr {CTYPE : Type} (b : Bool) (s s2 : QuantumStateBase CTYPE)
    (hm : s2.is_state_vector = s.is_state_vector)
    (hp : s2.get_device_name = "gpu" ↔ s.get_device_name = "gpu") :
    spec_backend b s2 = spec_backend b s := by
  simp [spec_backend, hm, hp]

/-- C6: for each of the four gate variants, every gate `g1`, every build and
    every state `s` (density matrix, state vector on the host, state vector
    on the device), `update_quantum_state` of `g1.copy()` on `s` leaves the
    same state and makes the same kernel invocations, with the same
    arguments, as `update_quantum_state` of `g1` on `s`; both come to a result
    exactly when the gate satisfies its arity invariant. -/
theorem copy_updates_like_the_original {CTYPE double : Type} (device_support : Bool)
    (s : QuantumStateBase CTYPE)
    (g1 : QuantumGate_OneQubit CTYPE) (g2 : QuantumGate_TwoQubit CTYPE)
    (g3 : QuantumGate_OneControlOneTarget CTYPE)
    (g4 : QuantumGate_OneQubitRotation CTYPE double) :
    ((g1.copy.out.update_quantum_state device_support s).map (fun r => (r.state, r.calls)) =
        (g1.update_quantum_state device_support s).map (fun r => (r.state, r.calls)) ∧
      ((∃ r, g1.copy.out.update_quantum_state device_support s = .ok r ∧ r.calls.length = 1) ↔
        g1.arity_ok)) ∧
    ((g2.copy.out.update_quantum_state device_support s).map (fun r => (r.state, r.calls)) =
        (g2.update_quantum_state device_support s).map (fun r => (r.state, r.calls)) ∧
      ((∃ r, g2.copy.out.update_quantum_state device_support s = .ok r ∧ r.calls.length = 1) ↔
        g2.arity_ok)) ∧
    ((g3.copy.out.update_quantum_state device_support s).map (fun r => (r.state, r.calls)) =
        (g3.update_quantum_state device_support s).map (fun r => (r.state, r.calls)) ∧
      ((∃ r, g3.copy.out.update_quantum_state device_support s = .ok r ∧ r.calls.length = 1) ↔
        g3.arity_ok)) ∧
    ((g4.copy.out.update_quantum_state device_support s).map (fun r => (r.state, r.calls)) =
        (g4.update_quantum_state device_support s).map (fun r => (r.state, r.calls)) ∧
      ((∃ r, g4.copy.out.update_quantum_state device_support s = .ok r ∧ r.calls.length = 1) ↔
        g4.arity_ok)) := by
  refine ⟨⟨?_, ?_⟩, ⟨?_, ?_⟩, ⟨?_, ?_⟩, ⟨?_, ?_⟩⟩
  · rw [g1.copy_out_one]
  · rw [g1.copy_out_one]; exact g1.update_ok_iff_one device_support s
  · rw [g2.copy_out_two]
  · rw [g2.copy_out_two]; exact g2.update_ok_iff_two device_support s
  · rw [g3.copy_out_ctrl]
  · rw [g3.copy_out_ctrl]; exact g3.update_ok_iff_ctrl device_support s
  · rw [g4.copy_out_rot]
  · rw [g4.copy_out_rot]; exact g4.update_ok_iff_rot device_support s

/-! ## `set_matrix` -/

/-- C7: for each of the four gate variants, every gate and every container
    `m`, after `set_matrix(m)` the container holds the stored
    `_matrix_element` of the gate, whatever it held before; no state is
    involved, and for a rotation the result is the stored snapshot, not a
    function of `_angle`: two rotation gates with the same `_matrix_element`
    yield the same matrix, whatever their angles and other fields. -/
theorem set_matrix_yields_stored_snapshot {CTYPE double : Type}
    (g1 : QuantumGate_OneQubit CTYPE) (g2 : QuantumGate_TwoQubit CTYPE)
    (g3 : QuantumGate_OneControlOneTarget CTYPE)
    (g4 : QuantumGate_OneQubitRotation CTYPE double) (m : ComplexMatrix CTYPE) :
    (g1.set_matrix m).out = g1._matrix_element ∧
    (g2.set_matrix m).out = g2._matrix_element ∧
    (g3.set_matrix m).out = g3._matrix_element ∧
    (g4.set_matrix m).out = g4._matrix_element ∧
    (∀ (base base2 : QuantumGateBase)
        (f f2 fd fd2 : UINT → double → List CTYPE → ITYPE → List CTYPE)
        (fg fg2 : UINT → double → List CTYPE → ITYPE → Nat → UINT → List CTYPE)
        (snapshot : ComplexMatrix CTYPE) (angle angle2 : double) (m1 m2 : ComplexMatrix CTYPE),
      (QuantumGate_OneQubitRotation.set_matrix
          { toQuantumGateBase := base, _update_func := f, _update_func_dm := fd
            _update_func_gpu := fg, _matrix_element := snapshot, _angle := angle } m1).out =
        (QuantumGate_OneQubitRotation.set_matrix
          { toQuantumGateBase := base2, _update_func := f2, _update_func_dm := fd2
            _update_func_gpu := fg2, _matrix_element := snapshot, _angle := angle2 } m2).out) :=
  ⟨rfl, rfl, rfl, rfl, fun _ _ _ _ _ _ _ _ _ _ _ _ _ => rfl⟩

/-- C8: for each of the four gate variants, `set_matrix(m)` leaves the gate
    as it was, field by field, so that for every build and every state
    `update_quantum_state` after a `set_matrix` call has the outcome (state
    left behind, kernel invoked, arguments) it has without that call; the
    outcome is a result with one kernel invocation exactly when the gate
    satisfies its arity invariant. -/
theorem set_matrix_leaves_gate_unchanged {CTYPE double : Type} (device_support : Bool)
    (s : QuantumStateBase CTYPE) (m : ComplexMatrix CTYPE)
    (g1 : QuantumGate_OneQubit CTYPE) (g2 : QuantumGate_TwoQubit CTYPE)
    (g3 : QuantumGate_OneControlOneTarget CTYPE)
    (g4 : QuantumGate_OneQubitRotation CTYPE double) :
    ((g1.set_matrix m).self = g1 ∧
      (g1.set_matrix m).self.update_quantum_state device_support s =
        g1.update_quantum_state device_support s ∧
      ((∃ r, (g1.set_matrix m).self.update_quantum_state device_support s = .ok r ∧
          r.calls.length = 1) ↔ g1.arity_ok)) ∧
    ((g2.set_matrix m).self = g2 ∧
      (g2.set_matrix m).self.update_quantum_state device_support s =
        g2.update_quantum_state device_support s ∧
      ((∃ r, (g2.set_matrix m).self.update_quantum_state device_support s = .ok r ∧
          r.calls.length = 1) ↔ g2.arity_ok)) ∧
    ((g3.set_matrix m).self = g3 ∧
      (g3.set_matrix m).self.update_quantum_state device_support s =
        g3.update_quantum_state device_support s ∧
      ((∃ r, (g3.set_matrix m).self.update_quantum_state device_support s = .ok r ∧
          r.calls.length = 1) ↔ g3.arity_ok)) ∧
    ((g4.set_matrix m).self = g4 ∧
      (g4.set_matrix m).self.update_quantum_state device_support s =
        g4.update_quantum_state device_support s ∧
      ((∃ r, (g4.set_matrix m).self.update_quantum_state device_support s = .ok r ∧
          r.calls.length = 1) ↔ g4.arity_ok)) :=
  ⟨⟨rfl, rfl, g1.update_ok_iff_one device_support s⟩, ⟨rfl, rfl, g2.update_ok_iff_two device_support s⟩,
    ⟨rfl, rfl, g3.update_ok_iff_ctrl device_support s⟩, ⟨rfl, rfl, g4.update_ok_iff_rot device_support s⟩⟩

/-! ## Frame of `update_quantum_state` -/

/-- C9: for each of the four gate variants (arity invariant in force),
    `update_quantum_state` changes only the buffer of the state: the gate is
    as it was, and the storage mode, device name, dimension, compute stream
    and device number of the state are as they were; a second invocation, on
    the state left behind or on any state `s2` of the same mode, goes through
    the same kernel pointer with the same qubit indices and angle as the
    first. -/
theorem update_changes_only_the_buffer {CTYPE double : Type} (device_support : Bool)
    (s s2 : QuantumStateBase CTYPE)
    (g1 : QuantumGate_OneQubit CTYPE) (g2 : QuantumGate_TwoQubit CTYPE)
    (g3 : QuantumGate_OneControlOneTarget CTYPE)
    (g4 : QuantumGate_OneQubitRotation CTYPE double)
    (h1 : g1.arity_ok) (h2 : g2.arity_ok) (h3 : g3.arity_ok) (h4 : g4.arity_ok)
    (hm : s2.is_state_vector = s.is_state_vector)
    (hp : s2.get_device_name = "gpu" ↔ s.get_device_name = "gpu") :
    (∃ r, g1.update_quantum_state device_support s = .ok r ∧ r.self = g1 ∧
      r.state.is_state_vector = s.is_state_vector ∧
      r.state.get_device_name = s.get_device_name ∧ r.state.dim = s.dim ∧
      r.state.get_cuda_stream = s.get_cuda_stream ∧
      r.state.device_number = s.device_number ∧
      (∃ r2, r.self.update_quantum_state device_support r.state = .ok r2 ∧ r2.self = g1 ∧
        r2.calls.map KernelCall.signature = r.calls.map KernelCall.signature) ∧
      (∃ r3, r.self.update_quantum_state device_support s2 = .ok r3 ∧ r3.self = g1 ∧
        r3.calls.map KernelCall.signature = r.calls.map KernelCall.signature)) ∧
    (∃ r, g2.update_quantum_state device_support s = .ok r ∧ r.self = g2 ∧
      r.state.is_state_vector = s.is_state_vector ∧
      r.state.get_device_name = s.get_device_name ∧ r.state.dim = s.dim ∧
      r.state.get_cuda_stream = s.get_cuda_stream ∧
      r.state.device_number = s.device_number ∧
      (∃ r2, r.self.update_quantum_state device_support r.state = .ok r2 ∧ r2.self = g2 ∧
        r2.calls.map KernelCall.signature = r.calls.map KernelCall.signature) ∧
      (∃ r3, r.self.update_quantum_state device_support s2 = .ok r3 ∧ r3.self = g2 ∧
        r3.calls.map KernelCall.signature = r.calls.map KernelCall.signature)) ∧
    (∃ r, g3.update_quantum_state device_support s = .ok r ∧ r.self = g3 ∧
      r.state.is_state_vector = s.is_state_vector ∧
      r.state.get_device_name = s.get_device_name ∧ r.state.dim = s.dim ∧
      r.state.get_cuda_stream = s.get_cuda_stream ∧
      r.state.device_number = s.device_number ∧
      (∃ r2, r.self.update_quantum_state device_support r.state = .ok r2 ∧ r2.self = g3 ∧
        r2.calls.map KernelCall.signature = r.calls.map KernelCall.signature) ∧
      (∃ r3, r.self.update_quantum_state device_support s2 = .ok r3 ∧ r3.self = g3 ∧
        r3.calls.map KernelCall.signature = r.calls.map KernelCall.signature)) ∧
    (∃ r, g4.update_quantum_state device_support s = .ok r ∧ r.self = g4 ∧
      r.state.is_state_vector = s.is_state_vector ∧
      r.state.get_device_name = s.get_device_name ∧ r.state.dim = s.dim ∧
      r.state.get_cuda_stream = s.get_cuda_stream ∧
      r.state.device_number = s.device_number ∧
      (∃ r2, r.self.update_quantum_state device_support r.state = .ok r2 ∧ r2.self = g4 ∧
        r2.calls.map KernelCall.signature = r.calls.map KernelCall.signature) ∧
      (∃ r3, r.self.update_quantum_state device_support s2 = .ok r3 ∧ r3.self = g4 ∧
        r3.calls.map KernelCall.signature = r.calls.map KernelCall.signature)) := by
  refine ⟨?_, ?_, ?_, ?_⟩
  · obtain ⟨t, ht⟩ := getElem_zero_of_one_le _ h1
    obtain ⟨r, hr, hself, hst, hc⟩ := g1.update_shape_one device_support s t ht
    obtain ⟨f1, f2, f3, f4, f5⟩ := written_frame s r.state hst
    have hb : spec_backend device_support r.state = spec_backend device_support s :=
      spec_backend_congr device_support s r.state f1 (by rw [f2])
    obtain ⟨r2, hr2, hself2, -, hc2⟩ := g1.update_shape_one device_support r.state t ht
    obtain ⟨r3, hr3, hself3, -, hc3⟩ := g1.update_shape_one device_support s2 t ht
    refine ⟨r, hr, hself, f1, f2, f3, f4, f5, ⟨r2, ?_, hself2, ?_⟩, ⟨r3, ?_, hself3, ?_⟩⟩
    · rw [hself]; exact hr2
    · rw [hc2, hc, hb]
    · rw [hself]; exact hr3
    · rw [hc3, hc, spec_backend_congr device_support s s2 hm hp]
  · obtain ⟨t0, t1, e0, e1⟩ := getElem_one_of_two_le _ h2
    obtain ⟨r, hr, hself, hst, hc⟩ := g2.update_shape_two device_support s t0 t1 e0 e1
    obtain ⟨f1, f2, f3, f4, f5⟩ := written_frame s r.state hst
    have hb : spec_backend device_support r.state = spec_backend device_support s :=
      spec_backend_congr device_support s r.state f1 (by rw [f2])
    obtain ⟨r2, hr2, hself2, -, hc2⟩ := g2.update_shape_two device_support r.state t0 t1 e0 e1
    obtain ⟨r3, hr3, hself3, -, hc3⟩ := g2.update_shape_two device_support s2 t0 t1 e0 e1
    refine ⟨r, hr, hself, f1, f2, f3, f4, f5, ⟨r2, ?_, hself2, ?_⟩, ⟨r3, ?_, hself3, ?_⟩⟩
    · rw [hself]; exact hr2
    · rw [hc2, hc, hb]
    · rw [hself]; exact hr3
    · rw [hc3, hc, spec_backend_congr device_support s s2 hm hp]
  · obtain ⟨t, ht⟩ := getElem_zero_of_one_le _ h3.1
    obtain ⟨c, hc0⟩ := getElem_zero_of_one_le _ h3.2
    obtain ⟨r, hr, hself, hst, hc⟩ := g3.update_shape_ctrl device_support s c t hc0 ht
    obtain ⟨f1, f2, f3, f4, f5⟩ := written_frame s r.state hst
    have hb : spec_backend device_support r.state = spec_backend device_support s :=
      spec_backend_congr device_support s r.state f1 (by rw [f2])
    obtain ⟨r2, hr2, hself2, -, hc2⟩ := g3.update_shape_ctrl device_support r.state c t hc0 ht
    obtain ⟨r3, hr3, hself3, -, hc3⟩ := g3.update_shape_ctrl device_support s2 c t hc0 ht
    refine ⟨r, hr, hself, f1, f2, f3, f4, f5, ⟨r2, ?_, hself2, ?_⟩, ⟨r3, ?_, hself3, ?_⟩⟩
    · rw [hself]; exact hr2
    · rw [hc2, hc, hb]
    · rw [hself]; exact hr3
    · rw [hc3, hc, spec_backend_congr device_support s s2 hm hp]
  · obtain ⟨t, ht⟩ := getElem_zero_of_one_le _ h4
    obtain ⟨r, hr, hself, hst, hc⟩ := g4.update_shape_rot device_support s t ht
    obtain ⟨f1, f2, f3, f4, f5⟩ := written_frame s r.state hst
    have hb : spec_backend device_support r.state = spec_backend device_support s :=
      spec_backend_congr device_support s r.state f1 (by rw [f2])
    obtain ⟨r2, hr2, hself2, -, hc2⟩ := g4.update_shape_rot device_support r.state t ht
    obtain ⟨r3, hr3, hself3, -, hc3⟩ := g4.update_shape_rot device_support s2 t ht
    refine ⟨r, hr, hself, f1, f2, f3, f4, f5, ⟨r2, ?_, hself2, ?_⟩, ⟨r3, ?_, hself3, ?_⟩⟩
    · rw [hself]; exact hr2
    · rw [hc2, hc, hb]
    · rw [hself]; exact hr3
    · rw [hc3, hc, spec_backend_congr device_support s s2 hm hp]

/-- Witness of C9: the sample gates on the sample device state, with the
    sample host state re-labelled as a second device state, in a build with
    device support. -/
theorem update_changes_only_the_buffer_witness :
    (∃ r, sample_one_qubit.update_quantum_state true sample_state_gpu = .ok r ∧
      r.self = sample_one_qubit ∧ r.state.is_state_vector = true ∧
      r.state.get_device_name = "gpu" ∧ r.state.dim = 4) ∧
    (∃ r, sample_two_qubit.update_quantum_state true sample_state_gpu = .ok r ∧
      r.self = sample_two_qubit ∧ r.state.is_state_vector = true ∧
      r.state.get_device_name = "gpu" ∧ r.state.dim = 4) ∧
    (∃ r, sample_controlled.update_quantum_state true sample_state_gpu = .ok r ∧
      r.self = sample_controlled ∧ r.state.is_state_vector = true ∧
      r.state.get_device_name = "gpu" ∧ r.state.dim = 4) ∧
    (∃ r, sample_rotation.update_quantum_state true sample_state_gpu = .ok r ∧
      r.self = sample_rotation ∧ r.state.is_state_vector = true ∧
      r.state.get_device_name = "gpu" ∧ r.state.dim = 4) := by
  have h := update_changes_only_the_buffer true sample_state_gpu
    { sample_state_host with _device_name := "gpu" }
    sample_one_qubit sample_two_qubit sample_controlled sample_rotation
    (by decide) (by decide) (by decide) (by decide) rfl (by decide)
  obtain ⟨⟨r1, h1, s1, a1, b1, c1, -⟩, ⟨r2, h2, s2, a2, b2, c2, -⟩,
    ⟨r3, h3, s3, a3, b3, c3, -⟩, ⟨r4, h4, s4, a4, b4, c4, -⟩⟩ := h
  exact ⟨⟨r1, h1, s1, a1, b1, c1⟩, ⟨r2, h2, s2, a2, b2, c2⟩, ⟨r3, h3, s3, a3, b3, c3⟩,
    ⟨r4, h4, s4, a4, b4, c4⟩⟩

/-! ## Qubit-list lookups -/

/-- C10: for each of the four gate variants, in every build and for every
    state, `update_quantum_state` reaches its one kernel invocation exactly
    when the gate satisfies the arity invariant of its variant (one target;
    two targets; one target and one control; one target), every lookup
    `_target_qubit_list[0]`, `_target_qubit_list[1]`, `_control_qubit_list[0]`
    then being within range; it checks no length itself, so a gate that
    breaks the invariant runs into the out-of-range access. -/
theorem lookups_in_range_iff_arity {CTYPE double : Type} (device_support : Bool)
    (s : QuantumStateBase CTYPE)
    (g1 : QuantumGate_OneQubit CTYPE) (g2 : QuantumGate_TwoQubit CTYPE)
    (g3 : QuantumGate_OneControlOneTarget CTYPE)
    (g4 : QuantumGate_OneQubitRotation CTYPE double) :
    (((∃ r, g1.update_quantum_state device_support s = .ok r ∧ r.calls.length = 1) ↔
        1 ≤ g1._target_qubit_list.length) ∧
      (g1.update_quantum_state device_support s = .error .out_of_range ↔
        ¬ 1 ≤ g1._target_qubit_list.length)) ∧
    (((∃ r, g2.update_quantum_state device_support s = .ok r ∧ r.calls.length = 1) ↔
        2 ≤ g2._target_qubit_list.length) ∧
      (g2.update_quantum_state device_support s = .error .out_of_range ↔
        ¬ 2 ≤ g2._target_qubit_list.length)) ∧
    (((∃ r, g3.update_quantum_state device_support s = .ok r ∧ r.calls.length = 1) ↔
        (1 ≤ g3._target_qubit_list.length ∧ 1 ≤ g3._control_qubit_list.length)) ∧
      (g3.update_quantum_state device_support s = .error .out_of_range ↔
        ¬ (1 ≤ g3._target_qubit_list.length ∧ 1 ≤ g3._control_qubit_list.length))) ∧
    (((∃ r, g4.update_quantum_state device_support s = .ok r ∧ r.calls.length = 1) ↔
        1 ≤ g4._target_qubit_list.length) ∧
      (g4.update_quantum_state device_support s = .error .out_of_range ↔
        ¬ 1 ≤ g4._target_qubit_list.length)) :=
  ⟨⟨g1.update_ok_iff_one device_support s, g1.update_fault_iff_one device_support s⟩,
    ⟨g2.update_ok_iff_two device_support s, g2.update_fault_iff_two device_support s⟩,
    ⟨g3.update_ok_iff_ctrl device_support s, g3.update_fault_iff_ctrl device_support s⟩,
    ⟨g4.update_ok_iff_rot device_support s, g4.update_fault_iff_rot device_support s⟩⟩

end Qulacs
